import Mathlib

/-!
Shallow embedding of the client-side coordination logic of the
book-recommendation frontend: the search coordinator
(`hooks/useBookSearch.tsx`), the auth session cache
(`hooks/AuthContext.tsx`), the favorite button
(`components/FavoriteButton.tsx`), the user-menu logout flow, and the
react-query cache configuration of the data hooks.
-/

namespace BookRec

/-! ## String primitives (models of the JavaScript string operations) -/

/-- Model of `a.startsWith`-style prefix test on character lists:
`startsWithL hay pre` is true iff `pre` is a prefix of `hay`. -/
def startsWithL : List Char → List Char → Bool
  | _, [] => true
  | [], _ :: _ => false
  | a :: as, b :: bs => a == b && startsWithL as bs

/-- Model of JavaScript `hay.includes(needle)`: substring containment on
character lists. -/
def includesL (needle : List Char) : List Char → Bool
  | [] => needle.isEmpty
  | c :: cs => startsWithL (c :: cs) needle || includesL needle cs

/-- Model of JavaScript `hay.includes(needle)` on strings. -/
def strIncludes (hay needle : String) : Bool :=
  includesL needle.data hay.data

/-- Model of JavaScript `String.prototype.toLowerCase` (ASCII case folding,
as exercised by the search filter). -/
def jsToLower (s : String) : String :=
  String.mk (s.data.map Char.toLower)

/-- Model of the JavaScript test `!s.trim()`: true iff the string consists
only of whitespace (so its trim is empty). -/
def isBlank (s : String) : Bool :=
  s.data.all Char.isWhitespace

/-! ## Data model -/

/-- A catalog book (`types/book.ts`); only the fields the coordination
logic reads are modelled (`id`, `title`, `author`). -/
structure Book where
  id : Nat
  title : String
  author : String
deriving DecidableEq, Repr

/-- A similar-book result (`types/book.ts`). The `similarity_score` float is
display-only and not consulted by any coordination logic, so it is omitted. -/
structure SimilarBook where
  id : Nat
  title : String
deriving DecidableEq, Repr

/-! ## Search filter (`useBookSearch.tsx`, `filteredBooks`) -/

/-- The filter predicate of `filteredBooks`:
`book.title.toLowerCase().includes(q.toLowerCase()) ||
 book.author.toLowerCase().includes(q.toLowerCase())`. -/
def matchesQuery (q : String) (b : Book) : Bool :=
  strIncludes (jsToLower b.title) (jsToLower q)
    || strIncludes (jsToLower b.author) (jsToLower q)

/-- `filteredBooks` from `useBookSearch.tsx`:
`if (!searchQuery.trim()) return []` and otherwise
`books.filter(...).slice(0, 10)`. -/
def filteredBooks (books : List Book) (searchQuery : String) : List Book :=
  if isBlank searchQuery then []
  else (books.filter (matchesQuery searchQuery)).take 10

/-- The candidate list exactly as the specification words it: the books
whose title or author contains the query case-insensitively as a substring,
truncated to the first 10 in collection order, with an empty query yielding
an empty list. Stated from the spec for comparison with `filteredBooks`. -/
def specCandidates (books : List Book) (q : String) : List Book :=
  if q = "" then []
  else (books.filter (matchesQuery q)).take 10

/-! ## Search coordinator race semantics (`useBookSearch.tsx`, `selectBookInternal`)

`selectBookInternal` runs a synchronous prefix (`setSelectedBook`,
`setSearchQuery(book.title)`, `setLoading(true)`), then awaits
`fetchSimilarBooks(book.id, 12)`; when the response resolves it runs
`setSimilarBooks(similar)` (or `setSimilarBooks([])` in the catch branch)
and `setLoading(false)`. The resolution handler writes unconditionally:
there is no check that `book` is still the current selection. We model a
run as a list of these events applied in program order. -/

/-- The rendered state of the search coordinator. -/
structure SearchState where
  selectedBook : Option Book
  searchQuery : String
  similarBooks : List SimilarBook
  loading : Bool
deriving DecidableEq, Repr

/-- The suspension-point events of `selectBookInternal`. `selectStart b` is
the synchronous prefix of a call for book `b`; `fetchResolve b r` is the
continuation run when `b`'s similarity response arrives with payload `r`;
`fetchReject b` is the catch branch when `b`'s fetch fails. -/
inductive SearchEvent where
  | selectStart (b : Book)
  | fetchResolve (b : Book) (r : List SimilarBook)
  | fetchReject (b : Book)
deriving DecidableEq, Repr

/-- One event of `selectBookInternal` applied to the rendered state.
The resolve/reject handlers ignore which book they were issued for,
exactly as in the source. -/
def searchStep (s : SearchState) : SearchEvent → SearchState
  | .selectStart b =>
      { s with selectedBook := some b, searchQuery := b.title, loading := true }
  | .fetchResolve _ r =>
      { s with similarBooks := r, loading := false }
  | .fetchReject _ =>
      { s with similarBooks := [], loading := false }

/-- Run a sequence of `selectBookInternal` events in program order. -/
def runSearch (s : SearchState) (es : List SearchEvent) : SearchState :=
  es.foldl searchStep s

/-- The initial coordinator state. -/
def initialSearchState : SearchState :=
  { selectedBook := none, searchQuery := "", similarBooks := [], loading := false }

/-! ## URL parameters (`URLSearchParams`) and the URL-synced coordinator -/

/-- Model of `URLSearchParams.prototype.set`: replace the first entry with
the given key in place, deleting any further entries with that key; append
at the end when the key is absent. -/
def setParam : List (String × String) → String → String → List (String × String)
  | [], k, v => [(k, v)]
  | p :: ps, k, v =>
      if p.1 == k then (k, v) :: ps.filter (fun q => q.1 != k)
      else p :: setParam ps k v

/-- Model of `URLSearchParams.prototype.get`: the value of the first entry
with the given key. -/
def getParam (ps : List (String × String)) (k : String) : Option String :=
  (ps.find? (fun q => q.1 == k)).map (fun q => q.2)

/-- The displayed state of the URL-synced search coordinator
(`useBookSearch.tsx`, second variant): the rendered fields plus the
location's query parameters and the initialization flag. -/
@[ext]
structure CoordState where
  searchQuery : String
  selectedBook : Option Book
  similarBooks : List SimilarBook
  loading : Bool
  urlParams : List (String × String)
  isInitialized : Bool
deriving DecidableEq, Repr

/-- `selectBookInternal` run to completion with a successful similarity
fetch, where `fetchSim bookId limit` is the (deterministic) backend
response: sets the selection, sets the query text to the book's title,
stores the fetched results, and ends with `loading = false`. -/
def selectBookInternal (fetchSim : Nat → Nat → List SimilarBook)
    (book : Book) (s : CoordState) : CoordState :=
  { s with selectedBook := some book, searchQuery := book.title,
           similarBooks := fetchSim book.id 12, loading := false }

/-- `selectBook` (URL-synced variant): writes `bookId` and `search` into the
current location's query parameters via `URLSearchParams.set`, then runs
`selectBookInternal`. -/
def selectBook (fetchSim : Nat → Nat → List SimilarBook)
    (book : Book) (s : CoordState) : CoordState :=
  let ps := setParam (setParam s.urlParams "bookId" (toString book.id)) "search" book.title
  selectBookInternal fetchSim book { s with urlParams := ps }

/-- `reset` (URL-synced variant): `router.push(pathname)` drops the whole
query string, and the query text, selection, similarity results and
initialization flag are cleared. -/
def reset (s : CoordState) : CoordState :=
  { s with searchQuery := "", selectedBook := none, similarBooks := [],
           urlParams := [], isInitialized := false }

/-! ## Auth session cache (`hooks/AuthContext.tsx`) and the logout flow -/

/-- The authenticated user (`AuthContext.tsx`); only the fields the
coordination logic reads are modelled. -/
structure User where
  id : Nat
  name : String
  email : String
  is_admin : Bool
deriving DecidableEq, Repr

/-- Keys of the react-query client cache, as used by the favorites feature;
other query families are collapsed into `other`. -/
inductive QueryKey where
  | favoriteCheck (bookId : Nat)
  | favorites
  | other (name : String)
deriving DecidableEq, Repr

/-- The react-query client cache, restricted to the observations these
claims make: each entry carries a cached boolean (for `favoriteCheck`
entries, the cached favorite status). -/
@[reducible] def QueryCache : Type := List (QueryKey × Bool)

/-- Cache lookup: the value of the first entry with the given key. -/
def lookupCache (c : QueryCache) (k : QueryKey) : Option Bool :=
  (c.find? (fun e => decide (e.1 = k))).map (fun e => e.2)

/-- Auth provider state: the cached user, the loading flag, and the shared
react-query cache reachable through `useQueryClient()`. -/
structure AuthState where
  user : Option User
  loading : Bool
  cache : QueryCache
deriving Repr

/-- Outcome of the credentialed `GET /api/auth/me` request issued by
`fetchUser`: 2xx with a user payload, a non-2xx status, or a thrown
network error. -/
inductive MeResponse where
  | ok (data : User)
  | authFailed
  | netError
deriving DecidableEq, Repr

/-- `fetchUser` from `AuthContext.tsx`, run to completion on a resolved
request. On 2xx: if a user is cached and its `id` differs from the resolved
`data.id`, `queryClient.clear()` runs before `setUser(data)`. On a non-2xx
status or a thrown error: the user is cleared and the cache is cleared.
`setLoading(false)` runs in the `finally` block. -/
def fetchUser (s : AuthState) : MeResponse → AuthState
  | .ok data =>
      let cache' :=
        match s.user with
        | some u => if u.id ≠ data.id then [] else s.cache
        | none => s.cache
      { user := some data, loading := false, cache := cache' }
  | .authFailed => { user := none, loading := false, cache := [] }
  | .netError => { user := none, loading := false, cache := [] }

/-- `logout` from `AuthContext.tsx`: `setUser(null)` and
`queryClient.clear()`; purely local, no request is made here. -/
def logout (s : AuthState) : AuthState :=
  { s with user := none, cache := [] }

/-- Outcome of the `POST /api/auth/logout` request issued by the user
menu's `handleLogout`. -/
inductive LogoutResponse where
  | ok
  | failed
  | netError
deriving DecidableEq, Repr

/-- The user-menu state around `handleLogout`: the auth provider state it
acts on, its `isLoggingOut` flag, and the route pushed so far. -/
structure MenuState where
  auth : AuthState
  isLoggingOut : Bool
  nav : Option String
deriving Repr

/-- `handleLogout` from the user menu: `setIsLoggingOut(true)`, await the
server logout; only on `res.ok` does it call `logout()` and
`router.push('/login')`; on a failed response or a thrown error it logs and
resets `isLoggingOut` without touching the auth state or the cache. -/
def handleLogout (s : MenuState) : LogoutResponse → MenuState
  | .ok => { auth := logout s.auth, isLoggingOut := true, nav := some "/login" }
  | .failed => { s with isLoggingOut := false }
  | .netError => { s with isLoggingOut := false }

/-! ## `encodeURIComponent` (used by the favorite button's login redirect) -/

/-- The characters `encodeURIComponent` leaves unescaped: ASCII
alphanumerics and `- _ . ! ~ * ( )` and the apostrophe (U+0027). -/
def isUnreservedURIChar (c : Char) : Bool :=
  (c.isAlpha || c.isDigit)
    || ['-', '_', '.', '!', '~', '*', '(', ')', Char.ofNat 39].contains c

/-- The UTF-8 byte sequence of a character, as natural numbers. -/
def utf8Bytes (c : Char) : List Nat :=
  let n := c.toNat
  if n < 0x80 then [n]
  else if n < 0x800 then [0xC0 + n / 64, 0x80 + n % 64]
  else if n < 0x10000 then
    [0xE0 + n / 4096, 0x80 + (n / 64) % 64, 0x80 + n % 64]
  else
    [0xF0 + n / 262144, 0x80 + (n / 4096) % 64, 0x80 + (n / 64) % 64, 0x80 + n % 64]

/-- An uppercase hexadecimal digit. -/
def hexDigit (n : Nat) : Char :=
  if n < 10 then Char.ofNat (48 + n) else Char.ofNat (55 + n)

/-- A percent-escape `%XX` for one byte. -/
def percentByte (b : Nat) : List Char :=
  [Char.ofNat 37, hexDigit (b / 16), hexDigit (b % 16)]

/-- Model of JavaScript `encodeURIComponent`: unreserved characters pass
through; every other character is replaced by the percent-escapes of its
UTF-8 bytes. -/
def encodeURIComponent (s : String) : String :=
  String.mk (s.data.foldr
    (fun c acc =>
      (if isUnreservedURIChar c then [c] else (utf8Bytes c).flatMap percentByte) ++ acc)
    [])

/-! ## Favorite button (`components/FavoriteButton.tsx`) -/

/-- The payload of a cached `GET /api/favorites/{id}/check` result. -/
structure CheckResult where
  is_favorite : Bool
deriving DecidableEq, Repr

/-- The favorite button's state: the cached server check result (`data`
from `useCheckFavorite`, `none` while absent) and the local
`optimisticFavorite` flag. -/
structure FavState where
  data : Option CheckResult
  optimisticFavorite : Bool
deriving DecidableEq, Repr

/-- `isFavorite` in the component: `data?.is_favorite ?? optimisticFavorite`
— the server value when a check result is cached, the optimistic flag
otherwise. -/
def isFavoriteDisplay (s : FavState) : Bool :=
  match s.data with
  | some d => d.is_favorite
  | none => s.optimisticFavorite

/-- The `useEffect` that syncs with server state: when `data` is defined,
`setOptimisticFavorite(data.is_favorite)`. -/
def syncWithServer (s : FavState) : FavState :=
  match s.data with
  | some d => { s with optimisticFavorite := d.is_favorite }
  | none => s

/-- The optimistic phase of `handleClick`:
`setOptimisticFavorite(!isFavorite)` with `isFavorite` read at click time. -/
def handleClickFlip (s : FavState) : FavState :=
  { s with optimisticFavorite := !(isFavoriteDisplay s) }

/-- The favorite mutation chosen by `handleClick`. -/
inductive FavRequest where
  | add
  | remove
deriving DecidableEq, Repr

/-- Whether the awaited mutation resolved or threw. -/
inductive MutationOutcome where
  | success
  | failure
deriving DecidableEq, Repr

/-- `handleClick` from `FavoriteButton.tsx`, run to completion. Returns the
route pushed (if any), the mutation issued (if any), and the final local
state. Unauthenticated: push `/login?redirect=` + the encoded current path
and return before any mutation. Authenticated: flip the optimistic flag,
issue remove (when `isFavorite`) or add (otherwise); the catch branch rolls
the flag back to the captured pre-click `isFavorite`. -/
def handleClick (user : Option User) (path : String) (s : FavState)
    (outcome : MutationOutcome) :
    Option String × Option FavRequest × FavState :=
  match user with
  | none => (some ("/login?redirect=" ++ encodeURIComponent path), none, s)
  | some _ =>
      let fav := isFavoriteDisplay s
      let req := if fav then FavRequest.remove else FavRequest.add
      let flipped := handleClickFlip s
      match outcome with
      | .success => (none, some req, flipped)
      | .failure => (none, some req, { flipped with optimisticFavorite := fav })

/-! ## React-query hook configuration (`lib/api` data hooks) -/

/-- The options object of a `useQuery` call, restricted to the fields the
hooks set: `staleTime` and `refetchInterval` in milliseconds, and the
bounded `retry` count; `none` where the hook leaves the option unset. -/
structure QueryConfig where
  staleTime : Option Nat
  refetchInterval : Option Nat
  retry : Option Nat
deriving DecidableEq, Repr

/-- `useAllBooks`: `staleTime: 10 * 60 * 1000`. -/
def useAllBooks : QueryConfig :=
  { staleTime := some (10 * 60 * 1000), refetchInterval := none, retry := none }

/-- `useSimilarBooks`: `staleTime: 15 * 60 * 1000`. -/
def useSimilarBooks : QueryConfig :=
  { staleTime := some (15 * 60 * 1000), refetchInterval := none, retry := none }

/-- `useDashboardStatus`: `refetchInterval: 30000, retry: 2`. -/
def useDashboardStatus : QueryConfig :=
  { staleTime := none, refetchInterval := some 30000, retry := some 2 }

/-- `useMonitorHealth`: `refetchInterval: 30000, retry: 2`. -/
def useMonitorHealth : QueryConfig :=
  { staleTime := none, refetchInterval := some 30000, retry := some 2 }

/-- `useDashboardAlerts`: `refetchInterval: 30000, retry: 2`. -/
def useDashboardAlerts : QueryConfig :=
  { staleTime := none, refetchInterval := some 30000, retry := some 2 }

/-- `useDashboardLogs`: `refetchInterval: 15000, retry: 1`. -/
def useDashboardLogs : QueryConfig :=
  { staleTime := none, refetchInterval := some 15000, retry := some 1 }

/-! ## Concrete inputs used by witnesses and counterexamples -/

/-- Book A of the selection race. -/
def raceBookA : Book := ⟨1, "Dune", "Frank Herbert"⟩

/-- Book B of the selection race. -/
def raceBookB : Book := ⟨2, "Foundation", "Isaac Asimov"⟩

/-- Similarity payload fetched for book A. -/
def raceResultA : List SimilarBook := [⟨10, "Dune Messiah"⟩]

/-- Similarity payload fetched for book B. -/
def raceResultB : List SimilarBook := [⟨20, "I, Robot"⟩]

/-- The race trace: select A, then select B before A's fetch resolves; B's
response arrives first, A's stale response arrives last. -/
def raceTrace : List SearchEvent :=
  [SearchEvent.selectStart raceBookA, SearchEvent.selectStart raceBookB,
   SearchEvent.fetchResolve raceBookB raceResultB,
   SearchEvent.fetchResolve raceBookA raceResultA]

/-- An authenticated user for the logout scenarios. -/
def c2User : User := ⟨7, "alice", "alice@example.com", false⟩

/-- A user-menu state with an authenticated user and a cached
favorite-check value for book 42. -/
def c2State : MenuState :=
  { auth := { user := some c2User, loading := false,
              cache := [(QueryKey.favoriteCheck 42, true)] },
    isLoggingOut := false, nav := none }

/-- A favorite-button state whose server check result is cached as
`is_favorite = false`. -/
def c4State : FavState := { data := some { is_favorite := false }, optimisticFavorite := false }

/-- A book whose title contains a space. -/
def blankQueryBook : Book := ⟨1, "a b", "x"⟩

/-- The "Dune" book of the spec's example scenario. -/
def duneBook : Book := ⟨1, "Dune", "Frank Herbert"⟩

/-- The "Foundation" book of the spec's example scenario. -/
def foundationBook : Book := ⟨2, "Foundation", "Isaac Asimov"⟩

/-! ## Helper lemmas about `URLSearchParams.set` -/

/-- After `setParam l k v`, the entries with key `k` are exactly the single
entry `(k, v)`. -/
theorem filter_setParam_self (l : List (String × String)) (k v : String) :
    (setParam l k v).filter (fun q => q.1 == k) = [(k, v)] := by
  induction l with
  | nil => simp [setParam]
  | cons p ps ih =>
    simp only [setParam]
    by_cases h : p.1 = k
    · simp only [h, beq_self_eq_true, if_true]
      rw [List.filter_cons_of_pos (by simp), List.filter_filter]
      have hff : ∀ a : String × String, ((a.1 == k) && (a.1 != k)) = false := by
        intro a; by_cases ha : a.1 = k <;> simp [ha]
      simp [hff]
    · have hb : (p.1 == k) = false := by simp [h]
      simp only [hb, Bool.false_eq_true, if_false]
      rw [List.filter_cons_of_neg (by simp [h]), ih]

/-- `setParam` leaves a list unchanged when its unique entry for the key
already holds the written value. -/
theorem setParam_eq_self (l : List (String × String)) (k v : String)
    (h : l.filter (fun q => q.1 == k) = [(k, v)]) : setParam l k v = l := by
  induction l with
  | nil => simp at h
  | cons p ps ih =>
    by_cases hp : p.1 = k
    · rw [List.filter_cons_of_pos (by simp [hp])] at h
      have hpe : p = (k, v) := (List.cons_eq_cons.mp h).1
      have hfe : ps.filter (fun q => q.1 == k) = [] := (List.cons_eq_cons.mp h).2
      have hall : ∀ a ∈ ps, ¬ ((fun q : String × String => q.1 == k) a = true) :=
        List.filter_eq_nil_iff.mp hfe
      have hkeep : ps.filter (fun q => q.1 != k) = ps := by
        apply List.filter_eq_self.mpr
        intro a ha
        have := hall a ha
        simp only [bne]
        simpa using this
      simp only [setParam, hp, beq_self_eq_true, if_true, hkeep, hpe]
    · have hb : (p.1 == k) = false := by simp [hp]
      rw [List.filter_cons_of_neg (by simp [hp])] at h
      simp only [setParam, hb, Bool.false_eq_true, if_false, ih h]

/-- Setting one key does not change the entries of a different key. -/
theorem filter_setParam_other (l : List (String × String)) (k k' v' : String)
    (h : (k' == k) = false) :
    (setParam l k' v').filter (fun q => q.1 == k) = l.filter (fun q => q.1 == k) := by
  induction l with
  | nil => simp [setParam, h]
  | cons p ps ih =>
    simp only [setParam]
    by_cases hp : p.1 = k'
    · simp only [hp, beq_self_eq_true, if_true]
      have hpk : (p.1 == k) = false := by rw [hp]; exact h
      rw [List.filter_cons_of_neg (by simp [h]), List.filter_cons_of_neg (by simp [hpk]),
        List.filter_filter]
      apply List.filter_congr
      intro a _
      by_cases ha : a.1 = k
      · have hkk : ¬ k = k' := fun he => by simp [he] at h
        simp [ha, hkk]
      · simp [ha]
    · have hb : (p.1 == k') = false := by simp [hp]
      simp only [hb, Bool.false_eq_true, if_false]
      by_cases hpk : p.1 = k
      · rw [List.filter_cons_of_pos (by simp [hpk]), List.filter_cons_of_pos (by simp [hpk]), ih]
      · rw [List.filter_cons_of_neg (by simp [hpk]), List.filter_cons_of_neg (by simp [hpk]), ih]

/-- Writing `bookId` then `search` a second time with the same values is a
no-op on the parameter list. -/
theorem setParam_pair_idem (ps : List (String × String)) (i t : String) :
    setParam (setParam (setParam (setParam ps "bookId" i) "search" t) "bookId" i) "search" t
      = setParam (setParam ps "bookId" i) "search" t := by
  have h1 : (setParam (setParam ps "bookId" i) "search" t).filter
      (fun q => q.1 == "bookId") = [("bookId", i)] := by
    rw [filter_setParam_other _ "bookId" "search" t (by decide)]
    exact filter_setParam_self ps "bookId" i
  rw [setParam_eq_self _ _ _ h1]
  exact setParam_eq_self _ _ _ (filter_setParam_self (setParam ps "bookId" i) "search" t)

/-! ## Claim theorems -/

/-- C1, counterexample: in the race "select A, then select B before A's
similarity fetch resolves", with B's response arriving before A's, the
final state shows B as the selection but renders the list fetched for A —
`selectBookInternal` has no selection-identity guard, so the claim that the
rendered list is "never the one fetched for A, regardless of the order in
which the two network responses arrive" is false. -/
theorem C1_counterexample :
    (runSearch initialSearchState raceTrace).selectedBook = some raceBookB
    ∧ (runSearch initialSearchState raceTrace).similarBooks = raceResultA
    ∧ raceResultA ≠ raceResultB := by decide

/-- C1, amended: the rendered similarity list is the payload of whichever
response arrives last (last-response-arrival wins, not last selection):
after any event sequence, a final resolution for any book overwrites the
list with its payload, and a final rejection overwrites it with `[]`. -/
theorem C1_last_response_wins (s : SearchState) (es : List SearchEvent)
    (b : Book) (r : List SimilarBook) :
    (runSearch s (es ++ [SearchEvent.fetchResolve b r])).similarBooks = r
    ∧ (runSearch s (es ++ [SearchEvent.fetchReject b])).similarBooks = [] := by
  constructor <;> simp [runSearch, List.foldl_append, searchStep]

/-- C2, counterexample: when the server-side logout request fails, the
logout flow (`handleLogout`) never invokes `logout()`, so the user stays
authenticated and a favorite-status check for book 42 still observes the
previously cached value — the local transition and cache clear are not
independent of the server response. -/
theorem C2_counterexample :
    (handleLogout c2State LogoutResponse.failed).auth.user = some c2User
    ∧ lookupCache (handleLogout c2State LogoutResponse.failed).auth.cache
        (QueryKey.favoriteCheck 42) = some true := by decide

/-- C2, amended: `logout()` itself transitions to unauthenticated and
clears the entire client cache (after which no favorite-status check
observes a cached value), but the logout flow invokes it — and redirects to
the login view — only when the server-side logout request succeeds; on a
failed or thrown request the auth state and navigation are left unchanged. -/
theorem C2_logout_flow (s : AuthState) (m : MenuState) (r : LogoutResponse) :
    (logout s).user = none
    ∧ (logout s).cache = []
    ∧ (∀ b, lookupCache (logout s).cache (QueryKey.favoriteCheck b) = none)
    ∧ (handleLogout m LogoutResponse.ok).auth = logout m.auth
    ∧ (handleLogout m LogoutResponse.ok).nav = some "/login"
    ∧ (r ≠ LogoutResponse.ok →
        (handleLogout m r).auth = m.auth ∧ (handleLogout m r).nav = m.nav) := by
  refine ⟨rfl, rfl, fun b => rfl, rfl, rfl, ?_⟩
  intro hr
  cases r with
  | ok => exact absurd rfl hr
  | failed => exact ⟨rfl, rfl⟩
  | netError => exact ⟨rfl, rfl⟩

/-- C2, witness: the amended theorem applied to the concrete menu state and
a failed server response. -/
theorem C2_witness :
    (handleLogout c2State LogoutResponse.failed).auth = c2State.auth
    ∧ (handleLogout c2State LogoutResponse.failed).nav = c2State.nav :=
  (C2_logout_flow c2State.auth c2State LogoutResponse.failed).2.2.2.2.2 (by decide)

/-- C3: when the session re-check resolves to a user whose primary key
differs from the currently cached user's id, `fetchUser` clears the entire
client cache (so every lookup misses) and stores the new identity. -/
theorem C3_refresh_clears_cache (s : AuthState) (u data : User)
    (hu : s.user = some u) (hne : u.id ≠ data.id) :
    (fetchUser s (MeResponse.ok data)).cache = []
    ∧ (fetchUser s (MeResponse.ok data)).user = some data
    ∧ ∀ k, lookupCache (fetchUser s (MeResponse.ok data)).cache k = none := by
  refine ⟨?_, ?_, ?_⟩ <;> simp [fetchUser, hu, hne, lookupCache]

/-- C3, witness: user 1 is cached together with a favorite-check entry;
the session re-check resolves to user 2 and the cache comes back empty. -/
theorem C3_witness :
    (fetchUser ⟨some ⟨1, "a", "a@x", false⟩, false, [(QueryKey.favoriteCheck 42, true)]⟩
        (MeResponse.ok ⟨2, "b", "b@x", false⟩)).cache = [] :=
  (C3_refresh_clears_cache
      ⟨some ⟨1, "a", "a@x", false⟩, false, [(QueryKey.favoriteCheck 42, true)]⟩
      ⟨1, "a", "a@x", false⟩ ⟨2, "b", "b@x", false⟩ rfl (by decide)).1

/-- C4, counterexample: with a cached server check result
(`is_favorite = false`) the optimistic flip leaves the displayed favorite
state unchanged, because `data?.is_favorite ?? optimisticFavorite` lets the
cached server value dominate — the toggle does not flip the locally
displayed state. -/
theorem C4_counterexample :
    ¬ (isFavoriteDisplay (handleClickFlip c4State) = !(isFavoriteDisplay c4State)) := by decide

/-- C4, amended: the toggle flips the local optimistic flag and issues the
add/remove request chosen by the pre-toggle displayed value; the flip
changes the displayed state exactly when no server check result is cached
(a cached server value dominates the display); and when the request fails
the rollback restores the displayed state to its pre-toggle value. -/
theorem C4_optimistic_flip_rollback (u : User) (path : String) (s : FavState) :
    (handleClickFlip s).optimisticFavorite = !(isFavoriteDisplay s)
    ∧ (s.data = none → isFavoriteDisplay (handleClickFlip s) = !(isFavoriteDisplay s))
    ∧ (∀ d, s.data = some d → isFavoriteDisplay (handleClickFlip s) = isFavoriteDisplay s)
    ∧ (handleClick (some u) path s MutationOutcome.failure).2.1
        = some (if isFavoriteDisplay s then FavRequest.remove else FavRequest.add)
    ∧ (handleClick (some u) path s MutationOutcome.success).2.1
        = some (if isFavoriteDisplay s then FavRequest.remove else FavRequest.add)
    ∧ isFavoriteDisplay (handleClick (some u) path s MutationOutcome.failure).2.2
        = isFavoriteDisplay s := by
  refine ⟨rfl, ?_, ?_, rfl, rfl, ?_⟩
  · intro h; simp [isFavoriteDisplay, handleClickFlip, h]
  · intro d h; simp [isFavoriteDisplay, handleClickFlip, h]
  · cases hd : s.data with
    | none => simp [handleClick, isFavoriteDisplay, handleClickFlip, hd]
    | some d => simp [handleClick, isFavoriteDisplay, handleClickFlip, hd]

/-- C4, witness: with no cached server result the optimistic flip is
visible, by the amended theorem at a concrete state. -/
theorem C4_witness :
    isFavoriteDisplay (handleClickFlip ⟨none, false⟩)
      = !(isFavoriteDisplay ⟨none, false⟩) :=
  (C4_optimistic_flip_rollback ⟨1, "u", "u@x", false⟩ "/book/42" ⟨none, false⟩).2.1 rfl

/-- C5: a favorite-toggle click while unauthenticated issues no mutation,
leaves the local state untouched, and navigates to the login view with the
current path URL-encoded as the redirect parameter; on path `/book/42` the
target is `/login?redirect=%2Fbook%2F42`. -/
theorem C5_unauthenticated_redirect (path : String) (s : FavState) (o : MutationOutcome) :
    (handleClick none path s o).1 = some ("/login?redirect=" ++ encodeURIComponent path)
    ∧ (handleClick none path s o).2.1 = none
    ∧ (handleClick none path s o).2.2 = s
    ∧ encodeURIComponent "/book/42" = "%2Fbook%2F42" :=
  ⟨rfl, rfl, rfl, by decide⟩

/-- C6, counterexample: on the whitespace-only query `" "` the code returns
no candidates (the `!searchQuery.trim()` guard fires), while the claimed
characterization — all books whose title or author contains the query —
selects the book titled `"a b"`. -/
theorem C6_counterexample :
    filteredBooks [blankQueryBook] " " ≠ specCandidates [blankQueryBook] " "
    ∧ filteredBooks [blankQueryBook] " " = []
    ∧ specCandidates [blankQueryBook] " " = [blankQueryBook] := by decide

/-- C6, amended: an empty or whitespace-only query yields an empty
candidate list; for every other query the candidate list is exactly the
books whose title or author contains the query case-insensitively,
truncated to the first 10 in collection order; in all cases the list has at
most 10 entries, preserves the collection order (sublist), and every
candidate matches the query. -/
theorem C6_filter_spec (B : List Book) (q : String) :
    (isBlank q = true → filteredBooks B q = [])
    ∧ (q = "" → filteredBooks B q = [])
    ∧ (isBlank q = false → filteredBooks B q = (B.filter (matchesQuery q)).take 10)
    ∧ (filteredBooks B q).length ≤ 10
    ∧ (filteredBooks B q).Sublist B
    ∧ (∀ b ∈ filteredBooks B q, matchesQuery q b = true) := by
  refine ⟨?_, ?_, ?_, ?_, ?_, ?_⟩
  · intro h; simp [filteredBooks, h]
  · intro h; subst h; simp [filteredBooks, isBlank]
  · intro h; simp [filteredBooks, h]
  · unfold filteredBooks
    split
    · simp
    · exact (List.length_take_le 10 _)
  · unfold filteredBooks
    split
    · exact List.nil_sublist B
    · exact (List.take_sublist _ _).trans (List.filter_sublist B)
  · intro b hb
    unfold filteredBooks at hb
    split at hb
    · simp at hb
    · exact List.of_mem_filter (List.mem_of_mem_take hb)

/-- C6, witness: the spec's example collection with query `"du"`, through
the amended theorem's non-blank case. -/
theorem C6_witness :
    filteredBooks [duneBook, foundationBook] "du"
      = ([duneBook, foundationBook].filter (matchesQuery "du")).take 10 :=
  (C6_filter_spec [duneBook, foundationBook] "du").2.2.1 (by decide)

/-- C7: `selectBook` sets the search text to exactly the book's title, and
selecting the same book twice in succession is idempotent on the whole
displayed state — query text, selection, similarity results, loading flag
and URL parameters — given the deterministic similarity backend. -/
theorem C7_selectBook_idempotent (fetchSim : Nat → Nat → List SimilarBook)
    (b : Book) (s : CoordState) :
    (selectBook fetchSim b s).searchQuery = b.title
    ∧ selectBook fetchSim b (selectBook fetchSim b s) = selectBook fetchSim b s := by
  refine ⟨rfl, ?_⟩
  apply CoordState.ext <;> simp [selectBook, selectBookInternal, setParam_pair_idem]

/-- C8: `reset()` after a selection clears the query text, the selected
book and the similarity results, and removes the `bookId` and `search`
parameters from the URL. -/
theorem C8_reset_clears (s : CoordState) (fetchSim : Nat → Nat → List SimilarBook) (b : Book) :
    (reset (selectBook fetchSim b s)).searchQuery = ""
    ∧ (reset (selectBook fetchSim b s)).selectedBook = none
    ∧ (reset (selectBook fetchSim b s)).similarBooks = []
    ∧ getParam (reset (selectBook fetchSim b s)).urlParams "bookId" = none
    ∧ getParam (reset (selectBook fetchSim b s)).urlParams "search" = none :=
  ⟨rfl, rfl, rfl, rfl, rfl⟩

/-- C9: the data hooks configure a 10-minute staleness window for the book
catalog, a 15-minute window for similarity results, a 30-second refetch
interval with at most 2 retries for dashboard status and alerts, and a
15-second refetch interval with at most 1 retry for logs. -/
theorem C9_cache_config :
    useAllBooks.staleTime = some (10 * 60 * 1000)
    ∧ useSimilarBooks.staleTime = some (15 * 60 * 1000)
    ∧ useDashboardStatus.refetchInterval = some 30000
    ∧ useDashboardAlerts.refetchInterval = some 30000
    ∧ useDashboardLogs.refetchInterval = some 15000
    ∧ useDashboardStatus.retry = some 2
    ∧ useDashboardAlerts.retry = some 2
    ∧ useDashboardLogs.retry = some 1 :=
  ⟨rfl, rfl, rfl, rfl, rfl, rfl, rfl, rfl⟩

/-- C10: whenever a server favorite-check result is cached the displayed
favorite state equals it and the optimistic flag is ignored; with no
cached result the optimistic flag is displayed; and a newly arriving server
value overwrites the optimistic flag through the sync effect. -/
theorem C10_server_value_dominates (s : FavState) :
    (∀ d, s.data = some d → isFavoriteDisplay s = d.is_favorite)
    ∧ (s.data = none → isFavoriteDisplay s = s.optimisticFavorite)
    ∧ (∀ d, s.data = some d → (syncWithServer s).optimisticFavorite = d.is_favorite) := by
  refine ⟨?_, ?_, ?_⟩
  · intro d h; simp [isFavoriteDisplay, h]
  · intro h; simp [isFavoriteDisplay, h]
  · intro d h; simp [syncWithServer, h]

/-- C10, witness: the theorem at a concrete state whose cached server value
is `true` while the optimistic flag is `false`. -/
theorem C10_witness :
    isFavoriteDisplay ⟨some ⟨true⟩, false⟩ = true :=
  (C10_server_value_dominates ⟨some ⟨true⟩, false⟩).1 ⟨true⟩ rfl

end BookRec
